import Mathlib

set_option linter.unusedVariables false

/-
Shallow embedding of the payroll run processing engine of the
AdeptAIPro/payroll-backend repository.

Sources embedded here:
  backend/services/tax_service.py     (TaxService.calculate_taxes)
  backend/services/payroll_service.py (PayrollService.process_payroll,
                                       PayrollService._process_employee_payroll,
                                       PayrollService._process_payment,
                                       PayrollService._generate_payslip_pdf)
  backend/routers/payroll.py          (create_payroll_run)
  backend/routers/timesheets.py       (create_timesheet derived totals)
  backend/orm_models.py               (entity fields, enums, defaults)

Modelling conventions:
  - Python Decimal values are modelled as rationals.  Within the column
    types declared in orm_models.py (DECIMAL(12,2) money, DECIMAL(5,4)
    rates) every multiplication, addition and subtraction performed by
    tax_service.py stays far below the 28 significant digits of the
    default decimal context, so Decimal arithmetic is exact there and the
    rational model is faithful.  Decimal.quantize with exponent 0.01 uses
    the default rounding mode ROUND_HALF_EVEN; quantize2 below reproduces
    it.
  - The SQLAlchemy session is modelled as an explicit record of entity
    lists; commit points correspond to the state threaded through the
    functions.  Commits themselves are modelled as infallible.
  - Raising is modelled with Except; the message of a ValueError is kept
    verbatim.  scalar_one_or_none is modelled including its
    MultipleResultsFound behaviour.
  - datetime columns that only record when something happened
    (processed_at, pdf_generated_at, created_at) are omitted: no claim
    mentions them.  Dates are modelled as integer day numbers, so that
    (end - start).days is plain integer subtraction.
  - The external collaborators (PDF generation, payment initiation) are
    modelled as oracle functions supplied per call.  PaymentService.
    send_payment_via_plaid (backend/services/payment_service.py lines
    15-75) wraps its whole body in try/except and on any internal error
    returns a dict with status "failed" and payment_id None -- it never
    raises -- so the payment oracle is a total function returning an
    outcome record.  PDF generation may raise, which
    _generate_payslip_pdf swallows, so its oracle is an Option.
-/

/-- SalaryType enum of orm_models.py: values "hourly" and "fixed". -/
inductive SalaryType where
  | hourly
  | fixed
deriving DecidableEq, Repr

/-- TimesheetStatus enum of orm_models.py. -/
inductive TimesheetStatus where
  | pending
  | approved
  | rejected
deriving DecidableEq, Repr

/-- PayrollStatus enum of orm_models.py. -/
inductive PayrollStatus where
  | pending
  | processing
  | completed
  | failed
deriving DecidableEq, Repr

/-- PaymentStatus enum of orm_models.py. -/
inductive PaymentStatus where
  | pending
  | processing
  | completed
  | failed
deriving DecidableEq, Repr

/-- Employee row (orm_models.py lines 85-124), restricted to the fields
read by the payroll engine.  hourly_rate is a nullable column; an
employee whose compensation is missing has none here, and the Python
code then fails with a TypeError when it multiplies Decimal by None. -/
structure Employee where
  id : Nat
  org_id : Nat
  is_active : Bool
  salary_type : SalaryType
  hourly_rate : Option ℚ
  base_salary : Option ℚ
  bank_account_id : Option String
deriving DecidableEq, Repr

/-- Timesheet row (orm_models.py lines 126-151), restricted to the fields
read by _process_employee_payroll.  total_hours and overtime_hours are
stored columns, filled in by create_timesheet at creation time. -/
structure Timesheet where
  id : Nat
  employee_id : Nat
  week_start_date : Int
  week_end_date : Int
  total_hours : ℚ
  overtime_hours : ℚ
  status : TimesheetStatus
deriving DecidableEq, Repr

/-- TaxConfiguration row (orm_models.py lines 153-168). -/
structure TaxConfiguration where
  org_id : Nat
  federal_tax_rate : ℚ
  state_tax_rate : ℚ
  social_security_rate : ℚ
  medicare_rate : ℚ
  is_active : Bool
deriving DecidableEq, Repr

/-- PayrollRun row (orm_models.py lines 170-189).  status defaults to
pending and the three totals default to 0 on creation. -/
structure PayrollRun where
  id : Nat
  org_id : Nat
  pay_period_start : Int
  pay_period_end : Int
  pay_date : Int
  status : PayrollStatus
  total_gross_pay : ℚ
  total_net_pay : ℚ
  total_taxes : ℚ
deriving DecidableEq, Repr

/-- Payslip row (orm_models.py lines 191-233), the PayRecord of the spec.
payment_status defaults to pending. -/
structure Payslip where
  employee_id : Nat
  payroll_run_id : Nat
  pay_period_start : Int
  pay_period_end : Int
  pay_date : Int
  regular_hours : ℚ
  overtime_hours : ℚ
  regular_pay : ℚ
  overtime_pay : ℚ
  gross_pay : ℚ
  federal_tax : ℚ
  state_tax : ℚ
  social_security : ℚ
  medicare : ℚ
  total_deductions : ℚ
  net_pay : ℚ
  payment_status : PaymentStatus
  payment_method : Option String
  payment_reference : Option String
  pdf_url : Option String
deriving DecidableEq, Repr

/-- Python exceptions raised by the embedded code paths. -/
inductive PyError where
  | valueError (msg : String)
  | typeError
  | multipleResults
  | httpError (code : Nat) (detail : String)
deriving DecidableEq, Repr

/-- Round-half-even of a rational to an integer, the rounding used by
Decimal.quantize under the default context (ROUND_HALF_EVEN). -/
def roundHalfEven (q : ℚ) : Int :=
  let n : Int := ⌊q⌋
  let r : ℚ := q - (n : ℚ)
  if r < 1/2 then n
  else if 1/2 < r then n + 1
  else if n % 2 = 0 then n else n + 1

/-- Decimal.quantize(Decimal(0.01)) under the default context: round the
value to 2 fractional digits, ties to even. -/
def quantize2 (q : ℚ) : ℚ :=
  (roundHalfEven (q * 100) : ℚ) / 100

/-- Federal tax before rounding: tax_service.py line 15. -/
def rawFederalTax (gross_pay : ℚ) (tax_config : TaxConfiguration) : ℚ :=
  gross_pay * tax_config.federal_tax_rate

/-- State tax before rounding: tax_service.py line 18. -/
def rawStateTax (gross_pay : ℚ) (tax_config : TaxConfiguration) : ℚ :=
  gross_pay * tax_config.state_tax_rate

/-- Social security before rounding: tax_service.py lines 21-22, with the
fixed wage base 160200. -/
def rawSocialSecurity (gross_pay : ℚ) (tax_config : TaxConfiguration) : ℚ :=
  min gross_pay 160200 * tax_config.social_security_rate

/-- Medicare before rounding: tax_service.py lines 25-31, including the
additional 0.9 percent on the excess over 200000. -/
def rawMedicare (gross_pay : ℚ) (tax_config : TaxConfiguration) : ℚ :=
  let medicare := gross_pay * tax_config.medicare_rate
  if gross_pay > 200000 then medicare + (gross_pay - 200000) * (9/1000)
  else medicare

/-- Result dict of TaxService.calculate_taxes (tax_service.py 39-46). -/
structure TaxResult where
  federal_tax : ℚ
  state_tax : ℚ
  social_security : ℚ
  medicare : ℚ
  total_deductions : ℚ
  net_pay : ℚ
deriving DecidableEq, Repr

/-- TaxService.calculate_taxes (tax_service.py lines 6-46).  The employee
argument is accepted and ignored exactly as in the source.  The four
itemized amounts are computed unrounded, total_deductions sums the
unrounded amounts, net_pay subtracts the unrounded total, and each of
the six dict entries is quantized to 2 digits on return. -/
def calculate_taxes (gross_pay : ℚ) (tax_config : TaxConfiguration)
    (employee : Employee) : TaxResult :=
  let federal_tax := gross_pay * tax_config.federal_tax_rate
  let state_tax := gross_pay * tax_config.state_tax_rate
  let social_security_wage_base : ℚ := 160200
  let social_security := min gross_pay social_security_wage_base * tax_config.social_security_rate
  let medicare0 := gross_pay * tax_config.medicare_rate
  let medicare_threshold : ℚ := 200000
  let medicare :=
    if gross_pay > medicare_threshold then
      medicare0 + (gross_pay - medicare_threshold) * (9/1000)
    else medicare0
  let total_deductions := federal_tax + state_tax + social_security + medicare
  let net_pay := gross_pay - total_deductions
  { federal_tax := quantize2 federal_tax
    state_tax := quantize2 state_tax
    social_security := quantize2 social_security
    medicare := quantize2 medicare
    total_deductions := quantize2 total_deductions
    net_pay := quantize2 net_pay }

/-- Modelled from the claim wording of C5: rounding to 2 decimal places
half-up, used only to compare the claimed rounding rule against the
rounding the code performs. -/
def specRoundHalfUp2 (q : ℚ) : ℚ :=
  (Int.floor (q * 100 + 1/2) : ℚ) / 100

/-- Values that are already exact multiples of 0.01 are fixed points of
quantize2. -/
theorem quantize2_eq_self (q : ℚ) (z : ℤ) (h : q * 100 = (z : ℚ)) :
    quantize2 q = q := by
  unfold quantize2 roundHalfEven
  rw [h, Int.floor_intCast]
  norm_num
  field_simp at h ⊢
  linarith

/-- Fixture: a dummy employee, standing for the ignored employee argument
of calculate_taxes. -/
def emp0 : Employee :=
  { id := 0, org_id := 0, is_active := true, salary_type := SalaryType.hourly
    hourly_rate := some 0, base_salary := none, bank_account_id := none }

/-- Fixture: the tax configuration of the C4 reference vector
(federal 0.22, state 0.05, social security 0.062, medicare 0.0145). -/
def cfg4 : TaxConfiguration :=
  { org_id := 1, federal_tax_rate := 22/100, state_tax_rate := 5/100
    social_security_rate := 62/1000, medicare_rate := 145/10000
    is_active := true }

/-- Claim C4: calculate_taxes on gross_pay 1000.00 with rates 0.22, 0.05,
0.062, 0.0145 returns federal 220.00, state 50.00, social security 62.00,
medicare 14.50, total deductions 346.50, net pay 653.50; and on
gross_pay 200000.00 the social security deduction is
min(200000, 160200) * 0.062 = 9932.40, not 12400.00.  Determinism is
inherent: calculate_taxes is a pure function of its arguments. -/
theorem claim_C4_theorem :
    calculate_taxes 1000 cfg4 emp0 =
      { federal_tax := 220, state_tax := 50, social_security := 62
        medicare := 29/2, total_deductions := 693/2, net_pay := 1307/2 } ∧
    (calculate_taxes 200000 cfg4 emp0).social_security = 99324/10 ∧
    (calculate_taxes 200000 cfg4 emp0).social_security ≠ 12400 := by
  refine ⟨?_, ?_, ?_⟩ <;>
    norm_num [calculate_taxes, quantize2, roundHalfEven, min_def, cfg4]

/-- Fixture for the C5 counterexample: federal and state rates of 0.015
produce itemized amounts of 0.015 each, which round (half-even) to 0.02
individually while their sum 0.03 is already exact. -/
def cfg5a : TaxConfiguration :=
  { org_id := 1, federal_tax_rate := 15/1000, state_tax_rate := 15/1000
    social_security_rate := 0, medicare_rate := 0, is_active := true }

/-- Fixture for the C5 counterexample: a federal rate of 0.005 puts the
unrounded federal tax at exactly 0.005, where half-even and half-up
rounding differ. -/
def cfg5b : TaxConfiguration :=
  { org_id := 1, federal_tax_rate := 5/1000, state_tax_rate := 0
    social_security_rate := 0, medicare_rate := 0, is_active := true }

/-- Claim C5 counterexample.  At gross_pay 1 with rates cfg5a the
returned total_deductions is 0.03, but the sum of the four itemized
(already rounded) outputs is 0.02 + 0.02 + 0 + 0 = 0.04, so the total is
not the sum of the independently rounded items, and net_pay 0.97 is not
gross_pay minus that rounded sum (0.96).  At gross_pay 1 with rates
cfg5b the unrounded federal tax 0.005 is returned as 0.00: quantize
rounds half to even, not half-up (half-up would give 0.01). -/
theorem claim_C5_counterexample :
    (calculate_taxes 1 cfg5a emp0).total_deductions = 3/100 ∧
    (calculate_taxes 1 cfg5a emp0).federal_tax +
      (calculate_taxes 1 cfg5a emp0).state_tax +
      (calculate_taxes 1 cfg5a emp0).social_security +
      (calculate_taxes 1 cfg5a emp0).medicare = 4/100 ∧
    (calculate_taxes 1 cfg5a emp0).total_deductions ≠
      (calculate_taxes 1 cfg5a emp0).federal_tax +
      (calculate_taxes 1 cfg5a emp0).state_tax +
      (calculate_taxes 1 cfg5a emp0).social_security +
      (calculate_taxes 1 cfg5a emp0).medicare ∧
    (calculate_taxes 1 cfg5a emp0).net_pay ≠
      1 - ((calculate_taxes 1 cfg5a emp0).federal_tax +
      (calculate_taxes 1 cfg5a emp0).state_tax +
      (calculate_taxes 1 cfg5a emp0).social_security +
      (calculate_taxes 1 cfg5a emp0).medicare) ∧
    (calculate_taxes 1 cfg5b emp0).federal_tax = 0 ∧
    specRoundHalfUp2 (rawFederalTax 1 cfg5b) = 1/100 := by
  refine ⟨?_, ?_, ?_, ?_, ?_, ?_⟩ <;>
    norm_num [calculate_taxes, quantize2, roundHalfEven, min_def,
      specRoundHalfUp2, rawFederalTax, cfg5a, cfg5b]

/-- Claim C5 as amended: each of the six outputs of calculate_taxes is
independently rounded to 2 decimal places with round-half-even at the
point of return, but the two totals are formed from the unrounded
intermediate amounts first: total_deductions is the rounding of the sum
of the four unrounded itemized deductions, and net_pay is the rounding
of gross_pay minus that unrounded sum. -/
theorem claim_C5_theorem (gross_pay : ℚ) (tax_config : TaxConfiguration)
    (employee : Employee) :
    calculate_taxes gross_pay tax_config employee =
      { federal_tax := quantize2 (rawFederalTax gross_pay tax_config)
        state_tax := quantize2 (rawStateTax gross_pay tax_config)
        social_security := quantize2 (rawSocialSecurity gross_pay tax_config)
        medicare := quantize2 (rawMedicare gross_pay tax_config)
        total_deductions := quantize2 (rawFederalTax gross_pay tax_config +
          rawStateTax gross_pay tax_config +
          rawSocialSecurity gross_pay tax_config +
          rawMedicare gross_pay tax_config)
        net_pay := quantize2 (gross_pay - (rawFederalTax gross_pay tax_config +
          rawStateTax gross_pay tax_config +
          rawSocialSecurity gross_pay tax_config +
          rawMedicare gross_pay tax_config)) } := by
  simp only [calculate_taxes, rawFederalTax, rawStateTax, rawSocialSecurity,
    rawMedicare]

/-- Outcome dict returned by PaymentService.send_payment_via_plaid
(payment_service.py lines 60-75): on success method is plaid with a
payment id and the Plaid status, on any internal error the except
handler returns method plaid, payment_id None and status failed.  The
function never raises. -/
structure PaymentOutcome where
  method : String
  payment_id : Option String
  reference : Option String
  status : PaymentStatus
deriving DecidableEq, Repr

/-- External collaborator oracles, per employee id.  pdf_result none
models generate_payslip_pdf raising (swallowed by the caller);
payment_result is total because send_payment_via_plaid never raises. -/
structure Collaborators where
  pdf_result : Nat → Option String
  payment_result : Nat → PaymentOutcome

/-- Database state: one list per table read or written by the payroll
engine. -/
structure DB where
  employees : List Employee
  timesheets : List Timesheet
  tax_configs : List TaxConfiguration
  payroll_runs : List PayrollRun
  payslips : List Payslip
deriving DecidableEq, Repr

/-- Result.scalar_one_or_none of SQLAlchemy: none for no row, the row if
unique, MultipleResultsFound otherwise. -/
def scalarOneOrNone {α : Type} : List α → Except PyError (Option α)
  | [] => Except.ok none
  | [a] => Except.ok (some a)
  | _ :: _ :: _ => Except.error PyError.multipleResults

/-- Python truthiness of a nullable string column: None and the empty
string are falsy. -/
def truthyStr : Option String → Bool
  | none => false
  | some s => !s.isEmpty

/-- Python expression a.get(k1) or a.get(k2): the first operand unless it
is falsy. -/
def orStr : Option String → Option String → Option String
  | none, y => y
  | some s, y => if s.isEmpty then y else some s

/-- Timesheet filter of _process_employee_payroll (payroll_service.py
lines 129-138): same employee, approved, and the weekly date range lies
inside the pay period. -/
def eligibleTimesheet (empId : Nat) (run : PayrollRun) (t : Timesheet) : Bool :=
  t.employee_id == empId &&
  decide (t.status = TimesheetStatus.approved) &&
  decide (run.pay_period_start ≤ t.week_start_date) &&
  decide (t.week_end_date ≤ run.pay_period_end)

/-- Hour accumulation loop of payroll_service.py lines 142-147: the pair
(total_regular_hours, total_overtime_hours). -/
def sumHours (tss : List Timesheet) : ℚ × ℚ :=
  tss.foldl
    (fun acc t => (acc.1 + (t.total_hours - t.overtime_hours),
                   acc.2 + t.overtime_hours))
    (0, 0)

/-- Day count of the salaried branch (payroll_service.py line 155):
(pay_period_end - pay_period_start).days + 1. -/
def daysInPeriod (run : PayrollRun) : Int :=
  run.pay_period_end - run.pay_period_start + 1

/-- Gross pay computation of payroll_service.py lines 149-159, returning
(regular_pay, overtime_pay).  A missing rate or base salary surfaces as
the TypeError that Decimal arithmetic with None raises in Python. -/
def computeGrossPay (employee : Employee) (run : PayrollRun) (regH otH : ℚ) :
    Except PyError (ℚ × ℚ) :=
  if employee.salary_type = SalaryType.hourly then
    match employee.hourly_rate with
    | none => Except.error PyError.typeError
    | some rate => Except.ok (regH * rate, otH * rate * (3/2))
  else
    match employee.base_salary with
    | none => Except.error PyError.typeError
    | some base =>
        Except.ok ((base / 365) * ((daysInPeriod run : ℤ) : ℚ), 0)

/-- Post-commit collaborator steps of _process_employee_payroll
(payroll_service.py lines 192-197) applied to the committed payslip:
_generate_payslip_pdf sets pdf_url on success and swallows its own
failures (the email notification it also sends has no modelled state
effect), and _process_payment runs only for a truthy bank_account_id,
recording the outcome dict onto the payslip.  Because the payment
collaborator returns a failure descriptor instead of raising, the
except branch of _process_payment (lines 238-243) is unreachable and no
error escapes. -/
def applyCollaborators (collab : Collaborators) (employee : Employee)
    (slip : Payslip) : Payslip :=
  let slip1 :=
    match collab.pdf_result employee.id with
    | some url => { slip with pdf_url := some url }
    | none => slip
  if truthyStr employee.bank_account_id then
    let outcome := collab.payment_result employee.id
    { slip1 with
        payment_method := some outcome.method
        payment_reference := orStr outcome.payment_id outcome.reference
        payment_status := outcome.status }
  else slip1

/-- PayrollService._process_employee_payroll (payroll_service.py lines
120-199): aggregate eligible timesheets, compute gross pay (propagating
the missing-compensation TypeError before anything is written), compute
taxes, commit the payslip with payment_status pending, then run the
post-commit collaborator steps. -/
def processEmployeePayroll (collab : Collaborators) (db : DB)
    (employee : Employee) (run : PayrollRun)
    (tax_config : TaxConfiguration) : DB × Except PyError Payslip :=
  let tss := db.timesheets.filter (eligibleTimesheet employee.id run)
  let hours := sumHours tss
  match computeGrossPay employee run hours.1 hours.2 with
  | Except.error e => (db, Except.error e)
  | Except.ok pay =>
      let gross := pay.1 + pay.2
      let taxes := calculate_taxes gross tax_config employee
      let slip0 : Payslip :=
        { employee_id := employee.id
          payroll_run_id := run.id
          pay_period_start := run.pay_period_start
          pay_period_end := run.pay_period_end
          pay_date := run.pay_date
          regular_hours := hours.1
          overtime_hours := hours.2
          regular_pay := pay.1
          overtime_pay := pay.2
          gross_pay := gross
          federal_tax := taxes.federal_tax
          state_tax := taxes.state_tax
          social_security := taxes.social_security
          medicare := taxes.medicare
          total_deductions := taxes.total_deductions
          net_pay := taxes.net_pay
          payment_status := PaymentStatus.pending
          payment_method := none
          payment_reference := none
          pdf_url := none }
      let slip := applyCollaborators collab employee slip0
      ({ db with payslips := db.payslips ++ [slip] }, Except.ok slip)

/-- Per-employee loop of process_payroll (payroll_service.py lines
86-94): sequential, each successful payslip is committed and its
amounts added to the running totals; the first exception aborts the
loop and escapes to the run-level handler. -/
def processEmployees (collab : Collaborators) (db : DB)
    (employees : List Employee) (run : PayrollRun)
    (tax_config : TaxConfiguration) (tg tn tt : ℚ) :
    DB × Except PyError (ℚ × ℚ × ℚ) :=
  match employees with
  | [] => (db, Except.ok (tg, tn, tt))
  | e :: rest =>
      match processEmployeePayroll collab db e run tax_config with
      | (db2, Except.error err) => (db2, Except.error err)
      | (db2, Except.ok slip) =>
          processEmployees collab db2 rest run tax_config
            (tg + slip.gross_pay) (tn + slip.net_pay)
            (tt + slip.total_deductions)

/-- Update of the single loaded PayrollRun row followed by a commit:
applies f to every run with the given id (ids are unique in practice;
uniqueness of the processed run is enforced by scalar_one_or_none
before any update happens). -/
def updateRun (db : DB) (id : Nat) (f : PayrollRun → PayrollRun) : DB :=
  { db with payroll_runs :=
      db.payroll_runs.map (fun r => if r.id == id then f r else r) }

/-- Status mutation payroll_run.status = PayrollStatus.PROCESSING. -/
def processingUpdate (r : PayrollRun) : PayrollRun :=
  { r with status := PayrollStatus.processing }

/-- Status mutation payroll_run.status = PayrollStatus.FAILED. -/
def failedUpdate (r : PayrollRun) : PayrollRun :=
  { r with status := PayrollStatus.failed }

/-- Mutation of payroll_service.py lines 97-101: totals, COMPLETED
status (processed_at is a timestamp, not modelled). -/
def completedUpdate (totals : ℚ × ℚ × ℚ) (r : PayrollRun) : PayrollRun :=
  { r with status := PayrollStatus.completed
           total_gross_pay := totals.1
           total_net_pay := totals.2.1
           total_taxes := totals.2.2 }

/-- Runs matching an id, as queried by process_payroll. -/
def runsById (db : DB) (id : Nat) : List PayrollRun :=
  db.payroll_runs.filter (fun r => r.id == id)

/-- Active employees of an organization (payroll_service.py lines
57-66). -/
def activeEmployees (db : DB) (org : Nat) : List Employee :=
  db.employees.filter (fun e => e.org_id == org && e.is_active)

/-- Active tax configurations of an organization (payroll_service.py
lines 68-77). -/
def activeConfigs (db : DB) (org : Nat) : List TaxConfiguration :=
  db.tax_configs.filter (fun c => c.org_id == org && c.is_active)

/-- Summary dict returned by process_payroll on success
(payroll_service.py lines 105-112).  The Python code converts the three
totals to float for the response; the exact values are kept here.  The
dict has no failed-employees field of any kind. -/
structure RunSummary where
  payroll_run_id : Nat
  status : String
  total_employees : Nat
  total_gross_pay : ℚ
  total_net_pay : ℚ
  total_taxes : ℚ
deriving DecidableEq, Repr

/-- PayrollService.process_payroll (payroll_service.py lines 43-118).
The run is looked up by id (ValueError if absent); its status is set to
PROCESSING unconditionally -- there is no check of the current status;
active employees and the active tax configuration are loaded (ValueError
if the configuration is missing); each employee is processed in turn
with no per-employee exception handling; on success totals and
COMPLETED are committed and the summary returned; any exception inside
the try block sets the status to FAILED and re-raises. -/
def process_payroll (collab : Collaborators) (db : DB)
    (payroll_run_id : Nat) : DB × Except PyError RunSummary :=
  match scalarOneOrNone (runsById db payroll_run_id) with
  | Except.error e => (db, Except.error e)
  | Except.ok none => (db, Except.error (PyError.valueError "Payroll run not found"))
  | Except.ok (some run) =>
      let db1 := updateRun db payroll_run_id processingUpdate
      let run1 := processingUpdate run
      let employees := activeEmployees db1 run.org_id
      match scalarOneOrNone (activeConfigs db1 run.org_id) with
      | Except.error e =>
          (updateRun db1 payroll_run_id failedUpdate, Except.error e)
      | Except.ok none =>
          (updateRun db1 payroll_run_id failedUpdate,
           Except.error (PyError.valueError "Tax configuration not found for organization"))
      | Except.ok (some tax_config) =>
          match processEmployees collab db1 employees run1 tax_config 0 0 0 with
          | (db2, Except.error err) =>
              (updateRun db2 payroll_run_id failedUpdate, Except.error err)
          | (db2, Except.ok totals) =>
              (updateRun db2 payroll_run_id (completedUpdate totals),
               Except.ok
                 { payroll_run_id := payroll_run_id
                   status := "completed"
                   total_employees := employees.length
                   total_gross_pay := totals.1
                   total_net_pay := totals.2.1
                   total_taxes := totals.2.2 })

/-- Runs of an organization with the given pay period, the duplicate
check of the create endpoint (routers/payroll.py lines 44-52). -/
def matchingRuns (db : DB) (org : Nat) (ps pe : Int) : List PayrollRun :=
  db.payroll_runs.filter
    (fun r => r.org_id == org && r.pay_period_start == ps && r.pay_period_end == pe)

/-- Autoincrement primary key for a new payroll run. -/
def nextRunId (db : DB) : Nat :=
  db.payroll_runs.foldl (fun m r => max m r.id) 0 + 1

/-- Router create_payroll_run (routers/payroll.py lines 30-66), after
authorization: reject with HTTP 400 when a run with the same
(org, pay_period_start, pay_period_end) already exists, otherwise
insert a new run with default status pending and zero totals. -/
def create_payroll_run (db : DB) (org : Nat) (ps pe pd : Int) :
    DB × Except PyError PayrollRun :=
  match scalarOneOrNone (matchingRuns db org ps pe) with
  | Except.error e => (db, Except.error e)
  | Except.ok (some _) =>
      (db, Except.error (PyError.httpError 400 "Payroll run already exists for this period"))
  | Except.ok none =>
      let run : PayrollRun :=
        { id := nextRunId db, org_id := org, pay_period_start := ps
          pay_period_end := pe, pay_date := pd
          status := PayrollStatus.pending
          total_gross_pay := 0, total_net_pay := 0, total_taxes := 0 }
      ({ db with payroll_runs := db.payroll_runs ++ [run] }, Except.ok run)

/-- Derived totals of the create_timesheet endpoint
(routers/timesheets.py lines 77-89): (total_hours, overtime_hours) from
the seven daily hour fields. -/
def timesheetTotals (mon tue wed thu fri sat sun : ℚ) : ℚ × ℚ :=
  let total := mon + tue + wed + thu + fri + sat + sun
  (total, max 0 (total - 40))

@[simp] theorem updateRun_employees (db : DB) (id : Nat)
    (f : PayrollRun → PayrollRun) :
    (updateRun db id f).employees = db.employees := rfl

@[simp] theorem updateRun_timesheets (db : DB) (id : Nat)
    (f : PayrollRun → PayrollRun) :
    (updateRun db id f).timesheets = db.timesheets := rfl

@[simp] theorem updateRun_tax_configs (db : DB) (id : Nat)
    (f : PayrollRun → PayrollRun) :
    (updateRun db id f).tax_configs = db.tax_configs := rfl

@[simp] theorem updateRun_payslips (db : DB) (id : Nat)
    (f : PayrollRun → PayrollRun) :
    (updateRun db id f).payslips = db.payslips := rfl

@[simp] theorem activeEmployees_updateRun (db : DB) (id : Nat)
    (f : PayrollRun → PayrollRun) (org : Nat) :
    activeEmployees (updateRun db id f) org = activeEmployees db org := rfl

@[simp] theorem activeConfigs_updateRun (db : DB) (id : Nat)
    (f : PayrollRun → PayrollRun) (org : Nat) :
    activeConfigs (updateRun db id f) org = activeConfigs db org := rfl

/-- Updating runs of one id commutes with selecting the runs of that id,
provided the update keeps the id. -/
theorem filter_map_updateIf (l : List PayrollRun) (id : Nat)
    (f : PayrollRun → PayrollRun) (hf : ∀ r, (f r).id = r.id) :
    (l.map (fun r => if r.id == id then f r else r)).filter
        (fun r => r.id == id) =
      (l.filter (fun r => r.id == id)).map f := by
  induction l with
  | nil => rfl
  | cons a t ih =>
      rw [List.map_cons, List.filter_cons, List.filter_cons]
      cases hb : (a.id == id) with
      | true =>
          have hfa : ((f a).id == id) = true := by
            rw [hf a]; exact hb
          rw [ih]
          simp [hfa]
      | false =>
          rw [ih]
          simp [hb]

/-- runsById after updateRun on the same id. -/
theorem runsById_updateRun (db : DB) (id : Nat)
    (f : PayrollRun → PayrollRun) (hf : ∀ r, (f r).id = r.id) :
    runsById (updateRun db id f) id = (runsById db id).map f := by
  unfold runsById updateRun
  exact filter_map_updateIf db.payroll_runs id f hf

@[simp] theorem processingUpdate_id (r : PayrollRun) :
    (processingUpdate r).id = r.id := rfl

@[simp] theorem failedUpdate_id (r : PayrollRun) :
    (failedUpdate r).id = r.id := rfl

@[simp] theorem completedUpdate_id (totals : ℚ × ℚ × ℚ) (r : PayrollRun) :
    (completedUpdate totals r).id = r.id := rfl

@[simp] theorem applyCollaborators_regular_hours (c : Collaborators)
    (e : Employee) (s : Payslip) :
    (applyCollaborators c e s).regular_hours = s.regular_hours := by
  unfold applyCollaborators
  cases c.pdf_result e.id <;> by_cases h : truthyStr e.bank_account_id <;> simp [h]

@[simp] theorem applyCollaborators_overtime_hours (c : Collaborators)
    (e : Employee) (s : Payslip) :
    (applyCollaborators c e s).overtime_hours = s.overtime_hours := by
  unfold applyCollaborators
  cases c.pdf_result e.id <;> by_cases h : truthyStr e.bank_account_id <;> simp [h]

@[simp] theorem applyCollaborators_regular_pay (c : Collaborators)
    (e : Employee) (s : Payslip) :
    (applyCollaborators c e s).regular_pay = s.regular_pay := by
  unfold applyCollaborators
  cases c.pdf_result e.id <;> by_cases h : truthyStr e.bank_account_id <;> simp [h]

@[simp] theorem applyCollaborators_overtime_pay (c : Collaborators)
    (e : Employee) (s : Payslip) :
    (applyCollaborators c e s).overtime_pay = s.overtime_pay := by
  unfold applyCollaborators
  cases c.pdf_result e.id <;> by_cases h : truthyStr e.bank_account_id <;> simp [h]

@[simp] theorem applyCollaborators_gross_pay (c : Collaborators)
    (e : Employee) (s : Payslip) :
    (applyCollaborators c e s).gross_pay = s.gross_pay := by
  unfold applyCollaborators
  cases c.pdf_result e.id <;> by_cases h : truthyStr e.bank_account_id <;> simp [h]

@[simp] theorem applyCollaborators_net_pay (c : Collaborators)
    (e : Employee) (s : Payslip) :
    (applyCollaborators c e s).net_pay = s.net_pay := by
  unfold applyCollaborators
  cases c.pdf_result e.id <;> by_cases h : truthyStr e.bank_account_id <;> simp [h]

@[simp] theorem applyCollaborators_total_deductions (c : Collaborators)
    (e : Employee) (s : Payslip) :
    (applyCollaborators c e s).total_deductions = s.total_deductions := by
  unfold applyCollaborators
  cases c.pdf_result e.id <;> by_cases h : truthyStr e.bank_account_id <;> simp [h]

@[simp] theorem applyCollaborators_employee_id (c : Collaborators)
    (e : Employee) (s : Payslip) :
    (applyCollaborators c e s).employee_id = s.employee_id := by
  unfold applyCollaborators
  cases c.pdf_result e.id <;> by_cases h : truthyStr e.bank_account_id <;> simp [h]

theorem applyCollaborators_payment_status (c : Collaborators)
    (e : Employee) (s : Payslip) (h : truthyStr e.bank_account_id = true) :
    (applyCollaborators c e s).payment_status = (c.payment_result e.id).status := by
  unfold applyCollaborators
  cases c.pdf_result e.id <;> simp [h]

theorem applyCollaborators_payment_method (c : Collaborators)
    (e : Employee) (s : Payslip) (h : truthyStr e.bank_account_id = true) :
    (applyCollaborators c e s).payment_method = some (c.payment_result e.id).method := by
  unfold applyCollaborators
  cases c.pdf_result e.id <;> simp [h]

/-- processEmployeePayroll only ever appends payslips: every other table
is untouched. -/
theorem processEmployeePayroll_state (collab : Collaborators) (db : DB)
    (e : Employee) (run : PayrollRun) (cfg : TaxConfiguration) :
    ∃ new, (processEmployeePayroll collab db e run cfg).1 =
      { db with payslips := db.payslips ++ new } := by
  simp only [processEmployeePayroll]
  cases hg : computeGrossPay e run
      (sumHours (List.filter (eligibleTimesheet e.id run) db.timesheets)).1
      (sumHours (List.filter (eligibleTimesheet e.id run) db.timesheets)).2 with
  | error err => exact ⟨[], by simp⟩
  | ok pay => exact ⟨_, rfl⟩

/-- The per-employee loop only ever appends payslips. -/
theorem processEmployees_state (emps : List Employee) (collab : Collaborators)
    (db : DB) (run : PayrollRun) (cfg : TaxConfiguration) (tg tn tt : ℚ) :
    ∃ new, (processEmployees collab db emps run cfg tg tn tt).1 =
      { db with payslips := db.payslips ++ new } := by
  induction emps generalizing db tg tn tt with
  | nil => exact ⟨[], by simp [processEmployees]⟩
  | cons e rest ih =>
      obtain ⟨n1, h1⟩ := processEmployeePayroll_state collab db e run cfg
      simp only [processEmployees]
      cases hp : processEmployeePayroll collab db e run cfg with
      | mk db2 r =>
          rw [hp] at h1
          cases r with
          | error err => exact ⟨n1, h1⟩
          | ok slip =>
              obtain ⟨n2, h2⟩ := ih db2 (tg + slip.gross_pay)
                (tn + slip.net_pay) (tt + slip.total_deductions)
              refine ⟨n1 ++ n2, ?_⟩
              have h1x : db2 = { db with payslips := db.payslips ++ n1 } := h1
              rw [h2, h1x]
              simp [List.append_assoc]

/-- Characterization of a successful per-employee step: the returned
payslip is the one built from the aggregated hours, the computed pay
pair and the tax calculation, with the collaborator effects applied,
and it is appended to the payslip table. -/
theorem processEmployeePayroll_ok_spec (collab : Collaborators) (db : DB)
    (e : Employee) (run : PayrollRun) (cfg : TaxConfiguration)
    (db2 : DB) (slip : Payslip)
    (h : processEmployeePayroll collab db e run cfg = (db2, Except.ok slip)) :
    ∃ pay, computeGrossPay e run
        (sumHours (List.filter (eligibleTimesheet e.id run) db.timesheets)).1
        (sumHours (List.filter (eligibleTimesheet e.id run) db.timesheets)).2 =
        Except.ok pay ∧
      slip = applyCollaborators collab e
        { employee_id := e.id
          payroll_run_id := run.id
          pay_period_start := run.pay_period_start
          pay_period_end := run.pay_period_end
          pay_date := run.pay_date
          regular_hours := (sumHours (List.filter (eligibleTimesheet e.id run) db.timesheets)).1
          overtime_hours := (sumHours (List.filter (eligibleTimesheet e.id run) db.timesheets)).2
          regular_pay := pay.1
          overtime_pay := pay.2
          gross_pay := pay.1 + pay.2
          federal_tax := (calculate_taxes (pay.1 + pay.2) cfg e).federal_tax
          state_tax := (calculate_taxes (pay.1 + pay.2) cfg e).state_tax
          social_security := (calculate_taxes (pay.1 + pay.2) cfg e).social_security
          medicare := (calculate_taxes (pay.1 + pay.2) cfg e).medicare
          total_deductions := (calculate_taxes (pay.1 + pay.2) cfg e).total_deductions
          net_pay := (calculate_taxes (pay.1 + pay.2) cfg e).net_pay
          payment_status := PaymentStatus.pending
          payment_method := none
          payment_reference := none
          pdf_url := none } ∧
      db2 = { db with payslips := db.payslips ++ [slip] } := by
  simp only [processEmployeePayroll] at h
  cases hg : computeGrossPay e run
      (sumHours (List.filter (eligibleTimesheet e.id run) db.timesheets)).1
      (sumHours (List.filter (eligibleTimesheet e.id run) db.timesheets)).2 with
  | error err => rw [hg] at h; simp at h
  | ok pay =>
      rw [hg] at h
      simp only [Prod.mk.injEq] at h
      obtain ⟨hdb, hs⟩ := h
      cases hs
      exact ⟨pay, rfl, rfl, hdb.symm⟩

/-- Characterization of a failed per-employee step: the only way
_process_employee_payroll can raise is the missing-compensation
TypeError of the gross pay computation, and in that case nothing has
been written.  In particular neither the PDF nor the payment
collaborator can make the step raise. -/
theorem processEmployeePayroll_error_spec (collab : Collaborators) (db : DB)
    (e : Employee) (run : PayrollRun) (cfg : TaxConfiguration)
    (db2 : DB) (err : PyError)
    (h : processEmployeePayroll collab db e run cfg = (db2, Except.error err)) :
    db2 = db ∧ err = PyError.typeError ∧
      ((e.salary_type = SalaryType.hourly ∧ e.hourly_rate = none) ∨
       (e.salary_type ≠ SalaryType.hourly ∧ e.base_salary = none)) := by
  simp only [processEmployeePayroll] at h
  cases hg : computeGrossPay e run
      (sumHours (List.filter (eligibleTimesheet e.id run) db.timesheets)).1
      (sumHours (List.filter (eligibleTimesheet e.id run) db.timesheets)).2 with
  | ok pay => rw [hg] at h; simp at h
  | error err0 =>
      rw [hg] at h
      simp only [Prod.mk.injEq] at h
      obtain ⟨hdb, he⟩ := h
      cases he
      refine ⟨hdb.symm, ?_⟩
      unfold computeGrossPay at hg
      by_cases hs : e.salary_type = SalaryType.hourly
      · rw [if_pos hs] at hg
        cases hr : e.hourly_rate with
        | none =>
            rw [hr] at hg
            simp only [Except.error.injEq] at hg
            exact ⟨hg.symm, Or.inl ⟨hs, rfl⟩⟩
        | some rate => rw [hr] at hg; simp at hg
      · rw [if_neg hs] at hg
        cases hb : e.base_salary with
        | none =>
            rw [hb] at hg
            simp only [Except.error.injEq] at hg
            exact ⟨hg.symm, Or.inr ⟨hs, rfl⟩⟩
        | some base => rw [hb] at hg; simp at hg

/-- process_payroll only appends payslips and rewrites run rows;
employees, timesheets and tax configurations are never touched. -/
theorem process_payroll_state (collab : Collaborators) (db : DB) (id : Nat) :
    ∃ new runs2, (process_payroll collab db id).1 =
      { db with payslips := db.payslips ++ new, payroll_runs := runs2 } := by
  simp only [process_payroll]
  cases hs : scalarOneOrNone (runsById db id) with
  | error err => exact ⟨[], db.payroll_runs, by simp⟩
  | ok o =>
      cases o with
      | none => exact ⟨[], db.payroll_runs, by simp⟩
      | some run =>
          cases hc : scalarOneOrNone (activeConfigs (updateRun db id processingUpdate) run.org_id) with
          | error err =>
              refine ⟨[], (updateRun (updateRun db id processingUpdate) id failedUpdate).payroll_runs, ?_⟩
              simp only [hc]
              simp [updateRun]
          | ok oc =>
              cases oc with
              | none =>
                  refine ⟨[], (updateRun (updateRun db id processingUpdate) id failedUpdate).payroll_runs, ?_⟩
                  simp only [hc]
                  simp [updateRun]
              | some cfg =>
                  obtain ⟨new, h⟩ := processEmployees_state
                    (activeEmployees (updateRun db id processingUpdate) run.org_id)
                    collab (updateRun db id processingUpdate)
                    (processingUpdate run) cfg 0 0 0
                  cases hp : processEmployees collab (updateRun db id processingUpdate)
                      (activeEmployees (updateRun db id processingUpdate) run.org_id)
                      (processingUpdate run) cfg 0 0 0 with
                  | mk db2 r =>
                      rw [hp] at h
                      have hx : db2 = { updateRun db id processingUpdate with
                          payslips := (updateRun db id processingUpdate).payslips ++ new } := h
                      cases r with
                      | error err =>
                          refine ⟨new, (updateRun db2 id failedUpdate).payroll_runs, ?_⟩
                          simp only [hc, hp]
                          rw [hx]
                          simp [updateRun]
                      | ok totals =>
                          refine ⟨new, (updateRun db2 id (completedUpdate totals)).payroll_runs, ?_⟩
                          simp only [hc, hp]
                          rw [hx]
                          simp [updateRun]

/-- Fixture: active tax configuration of organization 1 with the
reference rates. -/
def cfgOrg1 : TaxConfiguration :=
  { org_id := 1, federal_tax_rate := 22/100, state_tax_rate := 5/100
    social_security_rate := 62/1000, medicare_rate := 145/10000
    is_active := true }

/-- Fixture: a pending payroll run of organization 1 over a 14-day
period. -/
def runPend : PayrollRun :=
  { id := 1, org_id := 1, pay_period_start := 0, pay_period_end := 13
    pay_date := 16, status := PayrollStatus.pending
    total_gross_pay := 0, total_net_pay := 0, total_taxes := 0 }

/-- Fixture: an active hourly employee of organization 1 with a rate of
25 and no bank account. -/
def empHourly (i : Nat) : Employee :=
  { id := i, org_id := 1, is_active := true
    salary_type := SalaryType.hourly, hourly_rate := some 25
    base_salary := none, bank_account_id := none }

/-- Fixture: employee 3 of organization 1 with no compensation profile:
hourly without an hourly rate. -/
def empNoComp : Employee :=
  { id := 3, org_id := 1, is_active := true
    salary_type := SalaryType.hourly, hourly_rate := none
    base_salary := none, bank_account_id := none }

/-- Fixture: collaborators whose PDF generation fails and whose payment
initiation reports failure. -/
def collab0 : Collaborators :=
  { pdf_result := fun _ => none
    payment_result := fun _ =>
      { method := "plaid", payment_id := none, reference := none
        status := PaymentStatus.failed } }

/-- Fixture for C1: five active employees, employee 3 with no
compensation set, one active tax configuration, the pending run, no
timesheets. -/
def dbC1 : DB :=
  { employees := [empHourly 1, empHourly 2, empNoComp, empHourly 4, empHourly 5]
    timesheets := []
    tax_configs := [cfgOrg1]
    payroll_runs := [runPend]
    payslips := [] }

/-- Claim C1 counterexample.  Running process_payroll on a run of five
employees where employee 3 has no compensation profile does not
complete the run: the TypeError escapes to the caller, the run ends
with status failed, and only the 2 payslips committed before employee 3
exist -- not the 4 the claim requires, and no summary (hence no
failed_employee_ids) is returned. -/
theorem claim_C1_counterexample :
    (process_payroll collab0 dbC1 1).2 = Except.error PyError.typeError ∧
    runsById (process_payroll collab0 dbC1 1).1 1 = [failedUpdate runPend] ∧
    (process_payroll collab0 dbC1 1).1.payslips.length = 2 := by
  refine ⟨?_, ?_, ?_⟩ <;>
    norm_num [process_payroll, dbC1, runsById, scalarOneOrNone, updateRun,
      processingUpdate, failedUpdate, activeEmployees, activeConfigs,
      processEmployees, processEmployeePayroll, computeGrossPay, sumHours,
      eligibleTimesheet, applyCollaborators, calculate_taxes, quantize2,
      roundHalfEven, truthyStr, collab0, empHourly, empNoComp, cfgOrg1,
      runPend]

/-- Claim C1 as amended: per-employee failures are not isolated.  If the
per-employee loop raises for any employee, process_payroll catches the
error only at run level: the run status is set to failed, the payslips
committed before the failing employee are kept (nothing else is
written), and the same error is re-raised to the caller; no summary and
no failed-employee list is produced. -/
theorem claim_C1_theorem (collab : Collaborators) (db : DB) (id : Nat)
    (run : PayrollRun) (cfg : TaxConfiguration) (err : PyError)
    (hr : runsById db id = [run])
    (hc : activeConfigs db run.org_id = [cfg])
    (he : (processEmployees collab (updateRun db id processingUpdate)
        (activeEmployees db run.org_id) (processingUpdate run) cfg 0 0 0).2 =
        Except.error err) :
    (process_payroll collab db id).2 = Except.error err ∧
    (process_payroll collab db id).1 =
      updateRun (processEmployees collab (updateRun db id processingUpdate)
        (activeEmployees db run.org_id) (processingUpdate run) cfg 0 0 0).1
        id failedUpdate := by
  have hpp : process_payroll collab db id =
      (updateRun (processEmployees collab (updateRun db id processingUpdate)
        (activeEmployees db run.org_id) (processingUpdate run) cfg 0 0 0).1
        id failedUpdate, Except.error err) := by
    simp only [process_payroll, hr, scalarOneOrNone, activeConfigs_updateRun,
      hc, activeEmployees_updateRun]
    rcases hp : processEmployees collab (updateRun db id processingUpdate)
        (activeEmployees db run.org_id) (processingUpdate run) cfg 0 0 0 with ⟨db2, r⟩
    rw [hp] at he
    have hre : r = Except.error err := he
    subst hre
    simp [hp]
  exact ⟨by rw [hpp], by rw [hpp]⟩

/-- Claim C1 witness: the amended theorem applied to the concrete
five-employee database of the counterexample. -/
theorem claim_C1_witness :
    (process_payroll collab0 dbC1 1).2 = Except.error PyError.typeError ∧
    (process_payroll collab0 dbC1 1).1 =
      updateRun (processEmployees collab0 (updateRun dbC1 1 processingUpdate)
        (activeEmployees dbC1 runPend.org_id) (processingUpdate runPend) cfgOrg1 0 0 0).1
        1 failedUpdate :=
  claim_C1_theorem collab0 dbC1 1 runPend cfgOrg1 PyError.typeError
    (by norm_num [runsById, dbC1, runPend])
    (by norm_num [activeConfigs, dbC1, cfgOrg1, runPend])
    (by norm_num [processEmployees, processEmployeePayroll, computeGrossPay,
      sumHours, eligibleTimesheet, applyCollaborators, calculate_taxes,
      quantize2, roundHalfEven, truthyStr, collab0, empHourly, empNoComp,
      cfgOrg1, runPend, dbC1, updateRun, processingUpdate, activeEmployees])

/-- Fixture for C2: the run of organization 1 already in processing
status. -/
def runProc : PayrollRun :=
  { runPend with status := PayrollStatus.processing }

/-- Fixture for C2: the processing run, an active tax configuration and
no employees. -/
def dbC2 : DB :=
  { employees := []
    timesheets := []
    tax_configs := [cfgOrg1]
    payroll_runs := [runProc]
    payslips := [] }

/-- Claim C2 counterexample.  A run whose current status is processing
is not rejected: process_payroll runs it to completion, returns the
summary and moves the status to completed, so the transition is not
restricted to pending and no InvalidRunStateError exists. -/
theorem claim_C2_counterexample :
    runProc.status = PayrollStatus.processing ∧
    (process_payroll collab0 dbC2 1).2 = Except.ok
      { payroll_run_id := 1, status := "completed", total_employees := 0
        total_gross_pay := 0, total_net_pay := 0, total_taxes := 0 } ∧
    runsById (process_payroll collab0 dbC2 1).1 1 =
      [{ runProc with status := PayrollStatus.completed }] := by
  refine ⟨rfl, ?_, ?_⟩ <;>
    norm_num [process_payroll, dbC2, runsById, scalarOneOrNone, updateRun,
      processingUpdate, failedUpdate, completedUpdate, activeEmployees,
      activeConfigs, processEmployees, collab0, cfgOrg1, runPend, runProc]

/-- Claim C2 as amended: process_payroll never inspects the current
status of the run.  Whatever status the run found by id currently has,
the run is moved to processing and fully processed, ending with status
completed or failed; only a missing run id is rejected (with a
ValueError), and no InvalidRunStateError exists in the code. -/
theorem claim_C2_theorem (collab : Collaborators) (db : DB) (id : Nat)
    (run : PayrollRun) (hr : runsById db id = [run]) :
    ∃ r2, runsById (process_payroll collab db id).1 id = [r2] ∧
      (r2.status = PayrollStatus.completed ∨ r2.status = PayrollStatus.failed) := by
  have hrun : scalarOneOrNone (runsById db id) = Except.ok (some run) := by
    rw [hr]; rfl
  cases hc : scalarOneOrNone (activeConfigs db run.org_id) with
  | error err =>
      refine ⟨failedUpdate (processingUpdate run), ?_, Or.inr rfl⟩
      simp only [process_payroll, hrun, activeConfigs_updateRun, hc]
      rw [runsById_updateRun _ _ _ failedUpdate_id,
        runsById_updateRun _ _ _ processingUpdate_id, hr]
      rfl
  | ok oc =>
      cases oc with
      | none =>
          refine ⟨failedUpdate (processingUpdate run), ?_, Or.inr rfl⟩
          simp only [process_payroll, hrun, activeConfigs_updateRun, hc]
          rw [runsById_updateRun _ _ _ failedUpdate_id,
            runsById_updateRun _ _ _ processingUpdate_id, hr]
          rfl
      | some cfg =>
          obtain ⟨new, hx⟩ := processEmployees_state
            (activeEmployees db run.org_id) collab
            (updateRun db id processingUpdate) (processingUpdate run) cfg 0 0 0
          cases hp : processEmployees collab (updateRun db id processingUpdate)
              (activeEmployees db run.org_id) (processingUpdate run) cfg 0 0 0 with
          | mk db2 r =>
              rw [hp] at hx
              have hruns : runsById db2 id =
                  runsById (updateRun db id processingUpdate) id := by
                unfold runsById
                have hpr : db2.payroll_runs =
                    (updateRun db id processingUpdate).payroll_runs := by
                  rw [show db2 = ({ updateRun db id processingUpdate with
                    payslips := (updateRun db id processingUpdate).payslips ++ new }) from hx]
                rw [hpr]
              cases r with
              | error err =>
                  refine ⟨failedUpdate (processingUpdate run), ?_, Or.inr rfl⟩
                  simp only [process_payroll, hrun, activeConfigs_updateRun, hc,
                    activeEmployees_updateRun, hp]
                  rw [runsById_updateRun _ _ _ failedUpdate_id, hruns,
                    runsById_updateRun _ _ _ processingUpdate_id, hr]
                  rfl
              | ok totals =>
                  refine ⟨completedUpdate totals (processingUpdate run), ?_, Or.inl rfl⟩
                  simp only [process_payroll, hrun, activeConfigs_updateRun, hc,
                    activeEmployees_updateRun, hp]
                  rw [runsById_updateRun _ _ _ (completedUpdate_id totals), hruns,
                    runsById_updateRun _ _ _ processingUpdate_id, hr]
                  rfl

/-- Claim C2 witness: the amended theorem applied to the concrete
database of the counterexample, whose run is in processing status. -/
theorem claim_C2_witness :
    ∃ r2, runsById (process_payroll collab0 dbC2 1).1 1 = [r2] ∧
      (r2.status = PayrollStatus.completed ∨ r2.status = PayrollStatus.failed) :=
  claim_C2_theorem collab0 dbC2 1 runProc
    (by norm_num [runsById, dbC2, runProc, runPend])

/-- Fixture for C3: three active employees, the pending run, and no tax
configuration at all. -/
def dbC3 : DB :=
  { employees := [empHourly 1, empHourly 2, empHourly 3]
    timesheets := []
    tax_configs := []
    payroll_runs := [runPend]
    payslips := [] }

/-- Claim C3: with zero active tax configurations the whole run fails:
the missing-tax-configuration ValueError propagates to the caller, no
payslip is created no matter how many employees the organization has
(the database keeps exactly the payslips it had), and the run status
ends failed. -/
theorem claim_C3_theorem (collab : Collaborators) (db : DB) (id : Nat)
    (run : PayrollRun)
    (hr : runsById db id = [run])
    (hc : activeConfigs db run.org_id = []) :
    (process_payroll collab db id).2 =
      Except.error (PyError.valueError "Tax configuration not found for organization") ∧
    (process_payroll collab db id).1.payslips = db.payslips ∧
    runsById (process_payroll collab db id).1 id =
      [failedUpdate (processingUpdate run)] ∧
    (failedUpdate (processingUpdate run)).status = PayrollStatus.failed := by
  have hpp : process_payroll collab db id =
      (updateRun (updateRun db id processingUpdate) id failedUpdate,
       Except.error (PyError.valueError "Tax configuration not found for organization")) := by
    simp only [process_payroll, hr, scalarOneOrNone, activeConfigs_updateRun, hc]
  refine ⟨by rw [hpp], by rw [hpp]; simp, ?_, rfl⟩
  rw [hpp]
  show runsById (updateRun (updateRun db id processingUpdate) id failedUpdate) id = _
  rw [runsById_updateRun _ _ _ failedUpdate_id,
    runsById_updateRun _ _ _ processingUpdate_id, hr]
  rfl

/-- Claim C3 witness: the theorem applied to a database with three
employees and no tax configuration. -/
theorem claim_C3_witness :
    (process_payroll collab0 dbC3 1).2 =
      Except.error (PyError.valueError "Tax configuration not found for organization") ∧
    (process_payroll collab0 dbC3 1).1.payslips = dbC3.payslips ∧
    runsById (process_payroll collab0 dbC3 1).1 1 =
      [failedUpdate (processingUpdate runPend)] ∧
    (failedUpdate (processingUpdate runPend)).status = PayrollStatus.failed :=
  claim_C3_theorem collab0 dbC3 1 runPend
    (by norm_num [runsById, dbC3, runPend])
    (by norm_num [activeConfigs, dbC3, runPend])

/-- Accumulator form of the hour summation loop. -/
theorem sumHours_loop (tss : List Timesheet) (a b : ℚ) :
    tss.foldl
      (fun acc t => (acc.1 + (t.total_hours - t.overtime_hours),
                     acc.2 + t.overtime_hours)) (a, b) =
    (a + ((tss.map fun t => t.total_hours - t.overtime_hours)).sum,
     b + ((tss.map fun t => t.overtime_hours)).sum) := by
  induction tss generalizing a b with
  | nil => simp
  | cons t rest ih => simp [List.foldl_cons, ih, add_assoc]

/-- Claim C6: gross pay computation.  For an hourly employee with rate r,
regular_pay is regular_hours times r and overtime_pay is overtime_hours
times r times 1.5; for a salaried (fixed) employee with annual base b,
regular_pay prorates b by days_in_period over 365 with days_in_period =
(end - start) + 1, and overtime_pay is always 0; and every payslip a
successful per-employee step produces satisfies gross_pay =
regular_pay + overtime_pay. -/
theorem claim_C6_theorem :
    (∀ (e : Employee) (run : PayrollRun) (regH otH r : ℚ),
      e.salary_type = SalaryType.hourly → e.hourly_rate = some r →
      computeGrossPay e run regH otH = Except.ok (regH * r, otH * r * (3/2))) ∧
    (∀ (e : Employee) (run : PayrollRun) (regH otH b : ℚ),
      e.salary_type = SalaryType.fixed → e.base_salary = some b →
      computeGrossPay e run regH otH =
        Except.ok (b * ((daysInPeriod run : ℤ) : ℚ) / 365, 0)) ∧
    (∀ (collab : Collaborators) (db : DB) (e : Employee) (run : PayrollRun)
      (cfg : TaxConfiguration) (db2 : DB) (slip : Payslip),
      processEmployeePayroll collab db e run cfg = (db2, Except.ok slip) →
      slip.gross_pay = slip.regular_pay + slip.overtime_pay) := by
  refine ⟨?_, ?_, ?_⟩
  · intro e run regH otH r hs hr
    unfold computeGrossPay
    rw [if_pos hs, hr]
  · intro e run regH otH b hs hb
    unfold computeGrossPay
    rw [if_neg (by rw [hs]; exact fun hcontra => SalaryType.noConfusion hcontra), hb]
    simp only [div_mul_eq_mul_div]
  · intro collab db e run cfg db2 slip h
    obtain ⟨pay, hg, hslip, hdb⟩ := processEmployeePayroll_ok_spec collab db e run cfg db2 slip h
    rw [hslip]
    simp

/-- Claim C6 witness: the hourly formula applied to the fixture employee
with rate 25, at 40 regular and 10 overtime hours. -/
theorem claim_C6_witness :
    computeGrossPay (empHourly 1) runPend 40 10 =
      Except.ok (40 * 25, 10 * 25 * (3/2)) :=
  claim_C6_theorem.1 (empHourly 1) runPend 40 10 25 rfl rfl

/-- Claim C7: time aggregation.  The loop total is exactly the sum of
(total_hours - overtime_hours) and the sum of overtime_hours over the
records it is given; the records a per-employee step aggregates are
exactly the approved timesheets of that employee whose week lies inside
the pay period (all others are silently excluded, and no records means
zero hours, not a failure); and the derived per-record totals of
create_timesheet give [8,8,8,8,8,0,0] the pair (40, 0) and
[10,10,10,10,10,0,0] the pair (50, 10). -/
theorem claim_C7_theorem :
    (∀ tss : List Timesheet, sumHours tss =
      (((tss.map fun t => t.total_hours - t.overtime_hours)).sum,
       ((tss.map fun t => t.overtime_hours)).sum)) ∧
    (∀ (collab : Collaborators) (db : DB) (e : Employee) (run : PayrollRun)
      (cfg : TaxConfiguration) (db2 : DB) (slip : Payslip),
      processEmployeePayroll collab db e run cfg = (db2, Except.ok slip) →
      slip.regular_hours =
        (((db.timesheets.filter (eligibleTimesheet e.id run)).map
          fun t => t.total_hours - t.overtime_hours)).sum ∧
      slip.overtime_hours =
        (((db.timesheets.filter (eligibleTimesheet e.id run)).map
          fun t => t.overtime_hours)).sum) ∧
    timesheetTotals 8 8 8 8 8 0 0 = (40, 0) ∧
    timesheetTotals 10 10 10 10 10 0 0 = (50, 10) := by
  have hsum : ∀ tss : List Timesheet, sumHours tss =
      (((tss.map fun t => t.total_hours - t.overtime_hours)).sum,
       ((tss.map fun t => t.overtime_hours)).sum) := by
    intro tss
    unfold sumHours
    rw [sumHours_loop]
    simp
  refine ⟨hsum, ?_, ?_, ?_⟩
  · intro collab db e run cfg db2 slip h
    obtain ⟨pay, hg, hslip, hdb⟩ := processEmployeePayroll_ok_spec collab db e run cfg db2 slip h
    rw [hslip]
    simp [hsum]
  · norm_num [timesheetTotals, Prod.ext_iff]
  · norm_num [timesheetTotals, Prod.ext_iff]

@[simp] theorem decide_pending_eq_approved :
    decide (TimesheetStatus.pending = TimesheetStatus.approved) = false := by
  simp

@[simp] theorem decide_rejected_eq_approved :
    decide (TimesheetStatus.rejected = TimesheetStatus.approved) = false := by
  simp

@[simp] theorem decide_approved_eq_approved :
    decide (TimesheetStatus.approved = TimesheetStatus.approved) = true := by
  simp

/-- Fixture: an approved timesheet of employee 7 inside the period, with
50 total hours of which 10 overtime. -/
def tsApproved : Timesheet :=
  { id := 1, employee_id := 7, week_start_date := 0, week_end_date := 6
    total_hours := 50, overtime_hours := 10
    status := TimesheetStatus.approved }

/-- Fixture: a pending (not approved) timesheet of employee 7, to be
silently excluded from aggregation. -/
def tsNotApproved : Timesheet :=
  { id := 2, employee_id := 7, week_start_date := 7, week_end_date := 13
    total_hours := 40, overtime_hours := 0
    status := TimesheetStatus.pending }

/-- Fixture: hourly employee 7 with rate 20 and no bank account. -/
def emp7 : Employee :=
  { id := 7, org_id := 1, is_active := true
    salary_type := SalaryType.hourly, hourly_rate := some 20
    base_salary := none, bank_account_id := none }

/-- Fixture for the C7 witness: employee 7 with one approved and one
pending timesheet. -/
def db7 : DB :=
  { employees := [emp7]
    timesheets := [tsApproved, tsNotApproved]
    tax_configs := [cfgOrg1]
    payroll_runs := [runPend]
    payslips := [] }

/-- Payslip produced for employee 7 from the approved timesheet: 40
regular hours at 20, 10 overtime hours at 30, gross 1100, with the
reference rates applied. -/
def slip7 : Payslip :=
  { employee_id := 7, payroll_run_id := 1
    pay_period_start := 0, pay_period_end := 13, pay_date := 16
    regular_hours := 40, overtime_hours := 10
    regular_pay := 800, overtime_pay := 300, gross_pay := 1100
    federal_tax := 242, state_tax := 55
    social_security := 341/5, medicare := 319/20
    total_deductions := 7623/20, net_pay := 14377/20
    payment_status := PaymentStatus.pending
    payment_method := none, payment_reference := none, pdf_url := none }

/-- Claim C7 witness: the aggregation part of the theorem applied to
employee 7, whose approved in-period record is counted and whose
pending record is excluded. -/
theorem claim_C7_witness :
    slip7.regular_hours =
      (((db7.timesheets.filter (eligibleTimesheet emp7.id runPend)).map
        fun t => t.total_hours - t.overtime_hours)).sum ∧
    slip7.overtime_hours =
      (((db7.timesheets.filter (eligibleTimesheet emp7.id runPend)).map
        fun t => t.overtime_hours)).sum :=
  claim_C7_theorem.2.1 collab0 db7 emp7 runPend cfgOrg1
    { db7 with payslips := [slip7] } slip7
    (by norm_num [processEmployeePayroll, computeGrossPay, sumHours,
      eligibleTimesheet, applyCollaborators, calculate_taxes, quantize2,
      roundHalfEven, truthyStr, collab0, emp7, tsApproved, tsNotApproved,
      cfgOrg1, runPend, db7, slip7, min_def])

/-- Fixture: hourly employee 9 with rate 30 and a bank account, so the
payment step runs for them. -/
def empBank : Employee :=
  { id := 9, org_id := 1, is_active := true
    salary_type := SalaryType.hourly, hourly_rate := some 30
    base_salary := none, bank_account_id := some "acct-9" }

@[simp] theorem acct9_isEmpty : "acct-9".isEmpty = false := rfl

/-- Fixture for C8: one employee with a bank account, the pending run,
an active tax configuration, no timesheets. -/
def dbC8 : DB :=
  { employees := [empBank]
    timesheets := []
    tax_configs := [cfgOrg1]
    payroll_runs := [runPend]
    payslips := [] }

/-- Claim C8: post-commit payment failure containment.  Part one: the
per-employee step can only raise the pre-commit missing-compensation
TypeError, never a payment or PDF error, and an error leaves the
database untouched -- so a committed payslip is never unwound.  Part
two: for an employee with compensation and a bank account the step
always returns ok with the payslip committed, and the payslip records
the payment outcome status verbatim -- a failure outcome is stored as
payment_status failed.  Part three, concretely: a full run over an
employee whose payment initiation reports failure still completes, the
run status ends completed, and the single committed payslip carries
payment_status failed. -/
theorem claim_C8_theorem :
    (∀ (collab : Collaborators) (db : DB) (e : Employee) (run : PayrollRun)
      (cfg : TaxConfiguration) (db2 : DB) (err : PyError),
      processEmployeePayroll collab db e run cfg = (db2, Except.error err) →
      db2 = db ∧ err = PyError.typeError ∧
        ((e.salary_type = SalaryType.hourly ∧ e.hourly_rate = none) ∨
         (e.salary_type ≠ SalaryType.hourly ∧ e.base_salary = none))) ∧
    (∀ (collab : Collaborators) (db : DB) (e : Employee) (run : PayrollRun)
      (cfg : TaxConfiguration) (r : ℚ),
      e.salary_type = SalaryType.hourly → e.hourly_rate = some r →
      truthyStr e.bank_account_id = true →
      ∃ slip, processEmployeePayroll collab db e run cfg =
        ({ db with payslips := db.payslips ++ [slip] }, Except.ok slip) ∧
        slip.payment_status = (collab.payment_result e.id).status ∧
        slip.payment_method = some (collab.payment_result e.id).method) ∧
    ((process_payroll collab0 dbC8 1).2 = Except.ok
      { payroll_run_id := 1, status := "completed", total_employees := 1
        total_gross_pay := 0, total_net_pay := 0, total_taxes := 0 } ∧
     runsById (process_payroll collab0 dbC8 1).1 1 =
       [{ runPend with status := PayrollStatus.completed }] ∧
     (process_payroll collab0 dbC8 1).1.payslips.map (fun s => s.payment_status) =
       [PaymentStatus.failed]) := by
  refine ⟨processEmployeePayroll_error_spec, ?_, ?_⟩
  · intro collab db e run cfg r hs hr hb
    have hg : computeGrossPay e run
        (sumHours (List.filter (eligibleTimesheet e.id run) db.timesheets)).1
        (sumHours (List.filter (eligibleTimesheet e.id run) db.timesheets)).2 =
        Except.ok ((sumHours (List.filter (eligibleTimesheet e.id run) db.timesheets)).1 * r,
          (sumHours (List.filter (eligibleTimesheet e.id run) db.timesheets)).2 * r * (3/2)) := by
      unfold computeGrossPay
      rw [if_pos hs, hr]
    simp only [processEmployeePayroll, hg]
    refine ⟨_, rfl, ?_, ?_⟩
    · exact applyCollaborators_payment_status collab e _ hb
    · exact applyCollaborators_payment_method collab e _ hb
  · refine ⟨?_, ?_, ?_⟩ <;>
      norm_num [process_payroll, dbC8, runsById, scalarOneOrNone, updateRun,
        processingUpdate, completedUpdate, activeEmployees, activeConfigs,
        processEmployees, processEmployeePayroll, computeGrossPay, sumHours,
        eligibleTimesheet, applyCollaborators, calculate_taxes, quantize2,
        roundHalfEven, truthyStr, orStr, collab0, empBank, cfgOrg1, runPend]

/-- Claim C8 witness: the containment part applied to employee 9, whose
bank account triggers the payment step and whose payment collaborator
reports a failure outcome. -/
theorem claim_C8_witness :
    ∃ slip, processEmployeePayroll collab0 dbC8 empBank runPend cfgOrg1 =
      ({ dbC8 with payslips := dbC8.payslips ++ [slip] }, Except.ok slip) ∧
      slip.payment_status = (collab0.payment_result empBank.id).status ∧
      slip.payment_method = some (collab0.payment_result empBank.id).method :=
  claim_C8_theorem.2.1 collab0 dbC8 empBank runPend cfgOrg1 30 rfl rfl
    (by norm_num [truthyStr, empBank])

/-- Claim C9: duplicate run rejection.  Starting from a database with no
run for (org, period), the first creation succeeds and leaves exactly
one matching run; the second creation for the same (org, period) fails
with the duplicate HTTP 400 error and changes nothing. -/
theorem claim_C9_theorem (db : DB) (org : Nat) (ps pe pd : Int)
    (h0 : matchingRuns db org ps pe = []) :
    ∃ run, (create_payroll_run db org ps pe pd).2 = Except.ok run ∧
      matchingRuns (create_payroll_run db org ps pe pd).1 org ps pe = [run] ∧
      create_payroll_run (create_payroll_run db org ps pe pd).1 org ps pe pd =
        ((create_payroll_run db org ps pe pd).1,
         Except.error (PyError.httpError 400 "Payroll run already exists for this period")) := by
  have h1 : create_payroll_run db org ps pe pd =
      ({ db with payroll_runs := db.payroll_runs ++
          [{ id := nextRunId db, org_id := org, pay_period_start := ps
             pay_period_end := pe, pay_date := pd
             status := PayrollStatus.pending
             total_gross_pay := 0, total_net_pay := 0, total_taxes := 0 }] },
       Except.ok
         { id := nextRunId db, org_id := org, pay_period_start := ps
           pay_period_end := pe, pay_date := pd
           status := PayrollStatus.pending
           total_gross_pay := 0, total_net_pay := 0, total_taxes := 0 }) := by
    simp only [create_payroll_run, h0, scalarOneOrNone]
  have hm : matchingRuns (create_payroll_run db org ps pe pd).1 org ps pe =
      [{ id := nextRunId db, org_id := org, pay_period_start := ps
         pay_period_end := pe, pay_date := pd
         status := PayrollStatus.pending
         total_gross_pay := 0, total_net_pay := 0, total_taxes := 0 }] := by
    rw [h1]
    unfold matchingRuns at h0 ⊢
    rw [show ({ db with payroll_runs := db.payroll_runs ++
        [{ id := nextRunId db, org_id := org, pay_period_start := ps
           pay_period_end := pe, pay_date := pd
           status := PayrollStatus.pending
           total_gross_pay := 0, total_net_pay := 0, total_taxes := 0 }] } : DB).payroll_runs =
      db.payroll_runs ++
        [{ id := nextRunId db, org_id := org, pay_period_start := ps
           pay_period_end := pe, pay_date := pd
           status := PayrollStatus.pending
           total_gross_pay := 0, total_net_pay := 0, total_taxes := 0 }] from rfl]
    rw [List.filter_append, h0]
    simp
  refine ⟨_, by rw [h1], hm, ?_⟩
  have h2 : scalarOneOrNone (matchingRuns (create_payroll_run db org ps pe pd).1 org ps pe) =
      Except.ok (some
        { id := nextRunId db, org_id := org, pay_period_start := ps
          pay_period_end := pe, pay_date := pd
          status := PayrollStatus.pending
          total_gross_pay := 0, total_net_pay := 0, total_taxes := 0 }) := by
    rw [hm]
    rfl
  rw [h1] at h2 ⊢
  simp only [create_payroll_run, h2]

/-- Fixture: an empty database. -/
def dbEmpty : DB :=
  { employees := [], timesheets := [], tax_configs := []
    payroll_runs := [], payslips := [] }

/-- Claim C9 witness: the theorem applied to the empty database for
organization 1 and the period 0..13. -/
theorem claim_C9_witness :
    ∃ run, (create_payroll_run dbEmpty 1 0 13 16).2 = Except.ok run ∧
      matchingRuns (create_payroll_run dbEmpty 1 0 13 16).1 1 0 13 = [run] ∧
      create_payroll_run (create_payroll_run dbEmpty 1 0 13 16).1 1 0 13 16 =
        ((create_payroll_run dbEmpty 1 0 13 16).1,
         Except.error (PyError.httpError 400 "Payroll run already exists for this period")) :=
  claim_C9_theorem dbEmpty 1 0 13 16 (by norm_num [matchingRuns, dbEmpty])

/-- Claim C10: no rollback of committed pay records on run failure.
Part one, for every database and run id: process_payroll only ever
appends to the payslip table and rewrites run rows -- employees,
timesheets, tax configurations and the already-present payslips are
left exactly as they were, whatever the outcome.  Part two, concretely:
in the five-employee run that fails at employee 3, the two payslips
committed before the failure survive (employees 1 and 2), the error is
raised, and the failed run still owns those records, its status being
the only thing the failure path changed on it. -/
theorem claim_C10_theorem :
    (∀ (collab : Collaborators) (db : DB) (id : Nat),
      ∃ new runs2, (process_payroll collab db id).1 =
        { db with payslips := db.payslips ++ new, payroll_runs := runs2 }) ∧
    ((process_payroll collab0 dbC1 1).1.payslips.map (fun s => s.employee_id) =
      [1, 2] ∧
     (process_payroll collab0 dbC1 1).2 = Except.error PyError.typeError ∧
     runsById (process_payroll collab0 dbC1 1).1 1 =
       [{ runPend with status := PayrollStatus.failed }]) := by
  refine ⟨process_payroll_state, ?_, ?_, ?_⟩ <;>
    norm_num [process_payroll, dbC1, runsById, scalarOneOrNone, updateRun,
      processingUpdate, failedUpdate, activeEmployees, activeConfigs,
      processEmployees, processEmployeePayroll, computeGrossPay, sumHours,
      eligibleTimesheet, applyCollaborators, calculate_taxes, quantize2,
      roundHalfEven, truthyStr, collab0, empHourly, empNoComp, cfgOrg1,
      runPend]
